import Mathlib

/-!
Verification of the whisperq-frontend reaction-aggregation core.

The definitions below are a shallow embedding of the reaction store
(src/stores/reactionStore.ts, inlined at the end of
src/hooks/useWebSocket.ts), the burst classifier in
src/pages/AudiencePage.tsx (handleReaction), the inbound channel message
normalization in src/hooks/useWebSocket.ts, the question submission handler
in src/pages/AudiencePage.tsx, and the connection error grace-period logic
of src/hooks/useWebSocket.ts.  JavaScript numbers holding millisecond
timestamps are modelled as Nat (Date.now()), reaction scores as Int.
-/

/-- Reaction kinds, ReactionType in src/types. -/
inductive ReactionType where
  | confused
  | more
deriving DecidableEq, Repr

/-- Per-type score record, ReactionCount in src/types. -/
structure ReactionCount where
  confused : Int
  more : Int
deriving DecidableEq, Repr

/-- TimestampedReaction from reactionStore: one local reaction event. -/
structure TimestampedReaction where
  type : ReactionType
  timestamp : Nat
  points : Int
deriving DecidableEq, Repr

/-- The reaction store state (ReactionState in reactionStore.ts). -/
structure ReactionState where
  recentReactions : ReactionCount
  intensity : Int
  dominantType : Option ReactionType
  glowActive : Bool
  reactions : List TimestampedReaction
deriving DecidableEq, Repr

/-- GLOW_THRESHOLD = 5 in reactionStore.ts. -/
def GLOW_THRESHOLD : Int := 5

/-- SLIDING_WINDOW_MS = 30000 in reactionStore.ts. -/
def SLIDING_WINDOW_MS : Nat := 30000

/-- The store's initial state (create callback of useReactionStore). -/
def initialState : ReactionState :=
  { recentReactions := { confused := 0, more := 0 }
    intensity := 0
    dominantType := none
    glowActive := false
    reactions := [] }

/-- addReaction from reactionStore.ts: append a new event with
points = isRapidClick ? 2 : 1, drop events outside the 30-second window,
recompute scores, dominant type, glow and intensity.  Date.now() is passed
in as the parameter now. -/
def addReaction (type : ReactionType) (isRapidClick : Bool) (now : Nat)
    (state : ReactionState) : ReactionState :=
  let points : Int := if isRapidClick then 2 else 1
  let newReactions :=
    state.reactions.filter (fun r => decide (now - r.timestamp < SLIDING_WINDOW_MS))
      ++ [{ type := type, timestamp := now, points := points }]
  let confused :=
    (newReactions.filter (fun r => r.type == ReactionType.confused)).foldl
      (fun sum r => sum + r.points) 0
  let more :=
    (newReactions.filter (fun r => r.type == ReactionType.more)).foldl
      (fun sum r => sum + r.points) 0
  let dominant : Option ReactionType :=
    if confused ≥ GLOW_THRESHOLD then some ReactionType.confused
    else if more ≥ GLOW_THRESHOLD then some ReactionType.more
    else none
  let glowActive := decide (confused ≥ GLOW_THRESHOLD) || decide (more ≥ GLOW_THRESHOLD)
  let intensity : Int := if glowActive then 100 else 0
  { reactions := newReactions
    recentReactions := { confused := confused, more := more }
    intensity := intensity
    dominantType := dominant
    glowActive := glowActive }

/-- setReactionsFromBackend from reactionStore.ts: replace the displayed
scores with the backend values and recompute the derived fields; the
zustand set callback returns no reactions field, so the event log is kept. -/
def setReactionsFromBackend (confused more : Int) (state : ReactionState) :
    ReactionState :=
  let dominant : Option ReactionType :=
    if confused ≥ GLOW_THRESHOLD then some ReactionType.confused
    else if more ≥ GLOW_THRESHOLD then some ReactionType.more
    else none
  let glowActive := decide (confused ≥ GLOW_THRESHOLD) || decide (more ≥ GLOW_THRESHOLD)
  { state with
    recentReactions := { confused := confused, more := more }
    intensity := if glowActive then 100 else 0
    dominantType := dominant
    glowActive := glowActive }

/-- updateReactions from reactionStore.ts (demo mode): overwrite one
type's count, recompute derived fields; intensity falls back to the
caller-supplied argument when the glow threshold is not crossed. -/
def updateReactions (type : ReactionType) (count : Int) (intensity : Int)
    (state : ReactionState) : ReactionState :=
  let newReactions : ReactionCount :=
    match type with
    | ReactionType.confused => { state.recentReactions with confused := count }
    | ReactionType.more => { state.recentReactions with more := count }
  let dominant : Option ReactionType :=
    if newReactions.confused ≥ GLOW_THRESHOLD then some ReactionType.confused
    else if newReactions.more ≥ GLOW_THRESHOLD then some ReactionType.more
    else none
  let glowActive :=
    decide (newReactions.confused ≥ GLOW_THRESHOLD)
      || decide (newReactions.more ≥ GLOW_THRESHOLD)
  { state with
    recentReactions := newReactions
    intensity := if glowActive then 100 else intensity
    dominantType := dominant
    glowActive := glowActive }

/-- resetReactions from reactionStore.ts: zero every field. -/
def resetReactions (_state : ReactionState) : ReactionState :=
  { recentReactions := { confused := 0, more := 0 }
    intensity := 0
    dominantType := none
    glowActive := false
    reactions := [] }

/-- Store states reachable by any sequence of addReaction,
setReactionsFromBackend and resetReactions calls from the initial state. -/
inductive Reachable : ReactionState → Prop where
  | init : Reachable initialState
  | add (t : ReactionType) (r : Bool) (now : Nat) {s : ReactionState} :
      Reachable s → Reachable (addReaction t r now s)
  | backend (c m : Int) {s : ReactionState} :
      Reachable s → Reachable (setReactionsFromBackend c m s)
  | reset {s : ReactionState} :
      Reachable s → Reachable (resetReactions s)

/-- Claim C1: in every store state reachable by addReaction,
setReactionsFromBackend and resetReactions, glowActive equals
(confused score >= 5 OR more score >= 5), dominantType is confused when the
confused score crosses the threshold, else more when the more score does,
else none (confused wins ties), and intensity is 100 exactly when
glowActive and 0 otherwise. -/
theorem reachable_glow_invariant (s : ReactionState) (h : Reachable s) :
    s.glowActive =
        (decide (s.recentReactions.confused ≥ GLOW_THRESHOLD)
          || decide (s.recentReactions.more ≥ GLOW_THRESHOLD))
      ∧ s.dominantType =
        (if s.recentReactions.confused ≥ GLOW_THRESHOLD then some ReactionType.confused
         else if s.recentReactions.more ≥ GLOW_THRESHOLD then some ReactionType.more
         else none)
      ∧ s.intensity = (if s.glowActive then (100 : Int) else 0) := by
  induction h with
  | init => exact ⟨rfl, rfl, rfl⟩
  | add t r now _ _ => exact ⟨rfl, rfl, rfl⟩
  | backend c m _ _ => exact ⟨rfl, rfl, rfl⟩
  | reset _ _ => exact ⟨rfl, rfl, rfl⟩

/-- Witness for C1 at the concrete reachable state obtained by one
authoritative snapshot (7, 2). -/
theorem reachable_glow_invariant_witness :
    Reachable (setReactionsFromBackend 7 2 initialState)
      ∧ ((setReactionsFromBackend 7 2 initialState).glowActive =
          (decide ((setReactionsFromBackend 7 2 initialState).recentReactions.confused
              ≥ GLOW_THRESHOLD)
            || decide ((setReactionsFromBackend 7 2 initialState).recentReactions.more
              ≥ GLOW_THRESHOLD))
        ∧ (setReactionsFromBackend 7 2 initialState).dominantType =
          (if (setReactionsFromBackend 7 2 initialState).recentReactions.confused
              ≥ GLOW_THRESHOLD then some ReactionType.confused
           else if (setReactionsFromBackend 7 2 initialState).recentReactions.more
              ≥ GLOW_THRESHOLD then some ReactionType.more
           else none)
        ∧ (setReactionsFromBackend 7 2 initialState).intensity =
          (if (setReactionsFromBackend 7 2 initialState).glowActive then (100 : Int)
           else 0)) :=
  ⟨Reachable.backend 7 2 Reachable.init,
    reachable_glow_invariant _ (Reachable.backend 7 2 Reachable.init)⟩

/-- Sum of the points of the events of one type in an event log, written
independently of the store's filter-and-foldl computation. -/
def windowScore (k : ReactionType) (l : List TimestampedReaction) : Int :=
  ((l.filter (fun e => decide (e.type = k))).map TimestampedReaction.points).sum

/-- Boolean equality on reaction types agrees with decidable equality. -/
theorem type_beq_eq_decide (e : TimestampedReaction) (k : ReactionType) :
    (e.type == k) = decide (e.type = k) := by
  cases e.type <;> cases k <;> rfl

/-- A strict age bound and the negation of the eviction bound agree. -/
theorem decide_age_lt (now ts w : Nat) :
    decide (now - ts < w) = !decide (now - ts ≥ w) := by
  by_cases h : now - ts < w
  · simp [h, Nat.not_le_of_lt h]
  · simp [h, Nat.le_of_not_lt h]

/-- Folding point addition from the left equals the points sum. -/
theorem foldl_add_points (l : List TimestampedReaction) (init : Int) :
    l.foldl (fun sum r => sum + r.points) init
      = init + (l.map TimestampedReaction.points).sum := by
  induction l generalizing init with
  | nil => simp
  | cons a tl ih => simp [ih, add_assoc]

/-- Claim C2: addReaction appends one event stamped now with points
2 if rapid else 1, retains exactly the prior events whose age is below
30000 ms, and sets each per-type score to the points sum of the retained
events of that type. -/
theorem addReaction_window_spec (s : ReactionState) (t : ReactionType)
    (r : Bool) (now : Nat) :
    (addReaction t r now s).reactions =
        s.reactions.filter (fun e => !decide (now - e.timestamp ≥ SLIDING_WINDOW_MS))
          ++ [{ type := t, timestamp := now, points := if r then 2 else 1 }]
      ∧ (addReaction t r now s).recentReactions.confused =
        windowScore ReactionType.confused (addReaction t r now s).reactions
      ∧ (addReaction t r now s).recentReactions.more =
        windowScore ReactionType.more (addReaction t r now s).reactions := by
  refine ⟨?_, ?_, ?_⟩
  · show s.reactions.filter (fun e => decide (now - e.timestamp < SLIDING_WINDOW_MS)) ++ _
        = _
    rw [List.filter_congr (fun e _ => decide_age_lt now e.timestamp SLIDING_WINDOW_MS)]
  · show (((s.reactions.filter _ ++ _).filter
        (fun e => e.type == ReactionType.confused)).foldl
          (fun sum r => sum + r.points) 0) = _
    rw [foldl_add_points, zero_add, windowScore,
      List.filter_congr
        (fun e _ => type_beq_eq_decide e ReactionType.confused)]
    rfl
  · show (((s.reactions.filter _ ++ _).filter
        (fun e => e.type == ReactionType.more)).foldl
          (fun sum r => sum + r.points) 0) = _
    rw [foldl_add_points, zero_add, windowScore,
      List.filter_congr
        (fun e _ => type_beq_eq_decide e ReactionType.more)]
    rfl

/-- RAPID_WINDOW_MS: the 5-second burst window in AudiencePage.tsx
(now - ts < 5000). -/
def RAPID_WINDOW_MS : Nat := 5000

/-- Result of one handleReaction click on the burst-classifier state. -/
structure BurstStep where
  newClicks : List Nat
  isRapid : Bool
  fires : Bool
deriving DecidableEq, Repr

/-- The burst-classifier part of handleReaction in AudiencePage.tsx:
keep the click timestamps within the last 5 seconds, append the current
click, tag it rapid when the window holds at least 5 clicks, and fire the
strong-feedback toast exactly when the count equals 5. -/
def handleReactionBurst (clicks : List Nat) (now : Nat) : BurstStep :=
  let recentClicks := clicks.filter (fun ts => decide (now - ts < RAPID_WINDOW_MS))
  let newClicks := recentClicks ++ [now]
  let isRapid := decide (newClicks.length ≥ 5)
  let fires := isRapid && decide (newClicks.length = 5)
  { newClicks := newClicks, isRapid := isRapid, fires := fires }

/-- Claim C4: on every click, after evicting click timestamps whose age
reaches 5 seconds, isRapid holds exactly when the in-window count including
the current click is at least 5, and the strong-feedback signal fires
exactly when that count newly equals 5 (so a 6th click in the same window
keeps isRapid but does not re-fire). -/
theorem handleReactionBurst_spec (clicks : List Nat) (now : Nat) :
    (handleReactionBurst clicks now).newClicks =
        clicks.filter (fun ts => !decide (now - ts ≥ RAPID_WINDOW_MS)) ++ [now]
      ∧ ((handleReactionBurst clicks now).isRapid = true ↔
          5 ≤ (clicks.filter (fun ts => !decide (now - ts ≥ RAPID_WINDOW_MS))).length + 1)
      ∧ ((handleReactionBurst clicks now).fires = true ↔
          (clicks.filter (fun ts => !decide (now - ts ≥ RAPID_WINDOW_MS))).length + 1 = 5) := by
  have hfilter : clicks.filter (fun ts => decide (now - ts < RAPID_WINDOW_MS)) =
      clicks.filter (fun ts => !decide (now - ts ≥ RAPID_WINDOW_MS)) :=
    List.filter_congr (fun ts _ => decide_age_lt now ts RAPID_WINDOW_MS)
  refine ⟨?_, ?_, ?_⟩
  · show clicks.filter (fun ts => decide (now - ts < RAPID_WINDOW_MS)) ++ [now] = _
    rw [hfilter]
  · show decide ((clicks.filter (fun ts => decide (now - ts < RAPID_WINDOW_MS))
        ++ [now]).length ≥ 5) = true ↔ _
    rw [hfilter]
    simp
  · show (decide ((clicks.filter (fun ts => decide (now - ts < RAPID_WINDOW_MS))
          ++ [now]).length ≥ 5)
        && decide ((clicks.filter (fun ts => decide (now - ts < RAPID_WINDOW_MS))
          ++ [now]).length = 5)) = true ↔ _
    rw [hfilter]
    constructor
    · intro h
      have h2 := (Bool.and_eq_true _ _).mp h
      have := of_decide_eq_true h2.2
      simpa using this
    · intro h
      have hlen : (clicks.filter (fun ts => !decide (now - ts ≥ RAPID_WINDOW_MS))
          ++ [now]).length = 5 := by simpa using h
      refine (Bool.and_eq_true _ _).mpr ⟨decide_eq_true ?_, decide_eq_true hlen⟩
      omega

/-- Combined audience-page state for one client: burst-classifier click
window, reaction store and number of strong-feedback firings. -/
structure AudienceSim where
  clicks : List Nat
  store : ReactionState
  feedbackCount : Nat
deriving DecidableEq, Repr

/-- One reaction click as the claim composes it: the burst classifier of
handleReaction (AudiencePage.tsx) produces the isRapid flag and the
strong-feedback firing, and the store scores the click through
addReaction with that flag. -/
def audienceClick (t : ReactionType) (now : Nat) (sim : AudienceSim) :
    AudienceSim :=
  let step := handleReactionBurst sim.clicks now
  { clicks := step.newClicks
    store := addReaction t step.isRapid now sim.store
    feedbackCount := sim.feedbackCount + (if step.fires then 1 else 0) }

/-- Run a sequence of confused clicks at the given times from the empty
click window and the initial store. -/
def confusedClicksRun (times : List Nat) : AudienceSim :=
  times.foldl (fun sim t => audienceClick ReactionType.confused t sim)
    { clicks := [], store := initialState, feedbackCount := 0 }

/-- Counterexample to claim C3: the 5th confused click at t = 4 s lands
inside the 5-second burst window, is classified rapid and is scored with
2 points, so score.confused is 6, not 5 as the claim states. -/
theorem fifth_click_score_counterexample :
    (confusedClicksRun [0, 1000, 2000, 3000, 4000]).store.recentReactions.confused = 6
      ∧ ¬ ((confusedClicksRun [0, 1000, 2000, 3000, 4000]
          ).store.recentReactions.confused = 5) := by
  decide

/-- Claim C3 (amended): 4 confused clicks at t = 0..3 s give
score.confused = 4, glowActive = false and no feedback; the 5th click at
t = 4 s is classified rapid by the burst classifier (2 points), giving
score.confused = 6, glowActive = true, dominantType = confused, and the
burst feedback fires exactly once. -/
theorem rapid_click_scenario :
    (confusedClicksRun [0, 1000, 2000, 3000]).store.recentReactions.confused = 4
      ∧ (confusedClicksRun [0, 1000, 2000, 3000]).store.glowActive = false
      ∧ (confusedClicksRun [0, 1000, 2000, 3000]).feedbackCount = 0
      ∧ (confusedClicksRun [0, 1000, 2000, 3000, 4000]).store.recentReactions.confused = 6
      ∧ (confusedClicksRun [0, 1000, 2000, 3000, 4000]).store.glowActive = true
      ∧ (confusedClicksRun [0, 1000, 2000, 3000, 4000]).store.dominantType =
          some ReactionType.confused
      ∧ (confusedClicksRun [0, 1000, 2000, 3000, 4000]).feedbackCount = 1 := by
  decide

/-- The nested per-type count map of the new wire format
(reactionCounts in useWebSocket.ts). -/
structure ReactionCounts where
  CONFUSED : Option Int
  MORE : Option Int
deriving DecidableEq, Repr

/-- ReactionMessage from useWebSocket.ts: both wire shapes, every count
field optional. -/
structure ReactionMessage where
  sessionId : String
  reactionCounts : Option ReactionCounts
  confusedCount : Option Int
  moreCount : Option Int
  timestamp : Option Nat
deriving DecidableEq, Repr

/-- The confused value the subscribe handler computes:
data.reactionCounts?.CONFUSED ?? data.confusedCount ?? 0. -/
def normalizedConfused (m : ReactionMessage) : Int :=
  (m.reactionCounts.bind ReactionCounts.CONFUSED).getD (m.confusedCount.getD 0)

/-- The more value the subscribe handler computes:
data.reactionCounts?.MORE ?? data.moreCount ?? 0. -/
def normalizedMore (m : ReactionMessage) : Int :=
  (m.reactionCounts.bind ReactionCounts.MORE).getD (m.moreCount.getD 0)

/-- The claim's reading of the normalization rule, written as explicit
priority cases. -/
def claimedConfused (m : ReactionMessage) : Int :=
  match m.reactionCounts with
  | some rc =>
      match rc.CONFUSED with
      | some v => v
      | none => match m.confusedCount with | some v => v | none => 0
  | none => match m.confusedCount with | some v => v | none => 0

/-- The claim's reading of the normalization rule for more. -/
def claimedMore (m : ReactionMessage) : Int :=
  match m.reactionCounts with
  | some rc =>
      match rc.MORE with
      | some v => v
      | none => match m.moreCount with | some v => v | none => 0
  | none => match m.moreCount with | some v => v | none => 0

/-- The inbound message with an empty reactionCounts map and no legacy
fields. -/
def emptyCountsMessage : ReactionMessage :=
  { sessionId := "s"
    reactionCounts := some { CONFUSED := none, MORE := none }
    confusedCount := none
    moreCount := none
    timestamp := none }

/-- Claim C5: for every inbound message the handler's normalized values
follow the priority reactionCounts field, then legacy flat field, then 0;
in particular an empty reactionCounts map normalizes to (0, 0). -/
theorem normalization_spec (m : ReactionMessage) :
    normalizedConfused m = claimedConfused m
      ∧ normalizedMore m = claimedMore m
      ∧ normalizedConfused emptyCountsMessage = 0
      ∧ normalizedMore emptyCountsMessage = 0 := by
  obtain ⟨sid, rc, cc, mc, ts⟩ := m
  refine ⟨?_, ?_, rfl, rfl⟩
  · cases rc with
    | none => cases cc <;> rfl
    | some r => cases h : r.CONFUSED <;> cases cc <;>
        simp [normalizedConfused, claimedConfused, h]
  · cases rc with
    | none => cases mc <;> rfl
    | some r => cases h : r.MORE <;> cases mc <;>
        simp [normalizedMore, claimedMore, h]

/-- The subscribe message handler of useWebSocket.ts, after JSON parsing:
a body that fails to parse (none) is logged and dropped, a parsed message
is normalized and forwarded to setReactionsFromBackend. -/
def channelMessageStep (parsed : Option ReactionMessage)
    (s : ReactionState) : ReactionState :=
  match parsed with
  | some data => setReactionsFromBackend (normalizedConfused data) (normalizedMore data) s
  | none => s

/-- The live subscription processing a stream of inbound messages in
order; the subscription stays installed across malformed bodies because
the handler catches the parse error. -/
def processMessages (msgs : List (Option ReactionMessage))
    (s : ReactionState) : ReactionState :=
  msgs.foldl (fun st m => channelMessageStep m st) s

/-- Claim C6: a message whose body fails to parse leaves every field of
the reaction store unchanged, and the subscription keeps processing the
subsequent messages exactly as if the malformed one had not arrived. -/
theorem malformed_message_spec (s : ReactionState)
    (rest : List (Option ReactionMessage)) :
    channelMessageStep none s = s
      ∧ processMessages (none :: rest) s = processMessages rest s := by
  exact ⟨rfl, rfl⟩

/-- Claim C7: setReactionsFromBackend sets the displayed scores to exactly
the given pair, recomputes dominantType, glowActive and intensity by the
threshold rule, leaves the local event log untouched, and its result does
not depend on the prior log; the snapshot (7, 2) yields dominant confused
and an active glow for every prior state. -/
theorem setReactionsFromBackend_spec (confused more : Int)
    (s s2 : ReactionState) :
    (setReactionsFromBackend confused more s).recentReactions =
        { confused := confused, more := more }
      ∧ (setReactionsFromBackend confused more s).reactions = s.reactions
      ∧ (setReactionsFromBackend confused more s).glowActive =
        (decide (confused ≥ GLOW_THRESHOLD) || decide (more ≥ GLOW_THRESHOLD))
      ∧ (setReactionsFromBackend confused more s).dominantType =
        (if confused ≥ GLOW_THRESHOLD then some ReactionType.confused
         else if more ≥ GLOW_THRESHOLD then some ReactionType.more
         else none)
      ∧ (setReactionsFromBackend confused more s).intensity =
        (if (setReactionsFromBackend confused more s).glowActive then (100 : Int)
         else 0)
      ∧ (setReactionsFromBackend confused more s2).recentReactions =
        (setReactionsFromBackend confused more s).recentReactions
      ∧ (setReactionsFromBackend confused more s2).glowActive =
        (setReactionsFromBackend confused more s).glowActive
      ∧ (setReactionsFromBackend confused more s2).dominantType =
        (setReactionsFromBackend confused more s).dominantType
      ∧ (setReactionsFromBackend confused more s2).intensity =
        (setReactionsFromBackend confused more s).intensity
      ∧ (setReactionsFromBackend 7 2 s).dominantType = some ReactionType.confused
      ∧ (setReactionsFromBackend 7 2 s).glowActive = true := by
  exact ⟨rfl, rfl, rfl, rfl, rfl, rfl, rfl, rfl, rfl, rfl, rfl⟩

/-- JavaScript String.prototype.trim as used by handleSubmitQuestion:
drop whitespace from both ends. -/
def jsTrim (s : String) : String :=
  String.mk (((s.data.dropWhile Char.isWhitespace).reverse.dropWhile
    Char.isWhitespace).reverse)

/-- SentQuestion from AudiencePage.tsx: local echo of a sent question. -/
structure SentQuestion where
  id : String
  text : String
  timestamp : Nat
deriving DecidableEq, Repr

/-- The question-form state handleSubmitQuestion touches: the input field
and the local sent-question list. -/
structure QuestionFormState where
  question : String
  sentQuestions : List SentQuestion
deriving DecidableEq, Repr

/-- handleSubmitQuestion from AudiencePage.tsx: empty trimmed input is an
early return; otherwise createQuestion is awaited and in both the success
path and the catch path a SentQuestion with the trimmed text is prepended
and the input is cleared, the failure being only logged.  The succeeds
flag tells whether createQuestion resolved; Date.now() is the parameter
now. -/
def handleSubmitQuestion (succeeds : Bool) (now : Nat)
    (st : QuestionFormState) : QuestionFormState :=
  if jsTrim st.question = "" then st
  else if succeeds then
    { question := ""
      sentQuestions :=
        { id := toString now, text := jsTrim st.question, timestamp := now }
          :: st.sentQuestions }
  else
    { question := ""
      sentQuestions :=
        { id := toString now, text := jsTrim st.question, timestamp := now }
          :: st.sentQuestions }

/-- Claim C8: for every non-empty trimmed question text, the failure path
of handleSubmitQuestion still prepends a SentQuestion carrying the trimmed
text and clears the input, and its user-visible result coincides with the
success path. -/
theorem submitQuestion_failure_spec (st : QuestionFormState) (now : Nat)
    (h : jsTrim st.question ≠ "") :
    handleSubmitQuestion false now st =
        { question := ""
          sentQuestions :=
            { id := toString now, text := jsTrim st.question, timestamp := now }
              :: st.sentQuestions }
      ∧ handleSubmitQuestion false now st = handleSubmitQuestion true now st := by
  constructor
  · simp [handleSubmitQuestion, h]
  · simp [handleSubmitQuestion, h]

/-- Witness for C8 with the concrete input text " hello " and now = 42. -/
theorem submitQuestion_failure_witness :
    jsTrim (QuestionFormState.mk " hello " []).question ≠ ""
      ∧ handleSubmitQuestion false 42 (QuestionFormState.mk " hello " []) =
        QuestionFormState.mk "" [SentQuestion.mk "42" "hello" 42] :=
  ⟨by decide,
    ((submitQuestion_failure_spec (QuestionFormState.mk " hello " []) 42
        (by decide)).1).trans (by decide)⟩

/-- ERROR_GRACE_MS: the 10-second grace period of onWebSocketError in
useWebSocket.ts. -/
def ERROR_GRACE_MS : Nat := 10000

/-- The connection-facing state of useWebSocket.ts: the isConnected flag,
the user-visible connectionError, and the pending grace timer's deadline
(errorTimeoutRef), none when no timer is pending. -/
structure ConnState where
  connected : Bool
  connectionError : Option String
  errorDeadline : Option Nat
deriving DecidableEq, Repr

/-- Events of the connection lifecycle in useWebSocket.ts: a WebSocket
transport error, the grace timer firing, the STOMP client connecting,
disconnecting, and a STOMP protocol error frame. -/
inductive ConnEvent where
  | wsError (now : Nat)
  | graceFire (now : Nat)
  | connect
  | disconnect
  | stompError (msg : String)
deriving DecidableEq, Repr

/-- One step of the useWebSocket.ts connection callbacks.
onWebSocketError arms the 10-second grace timer only when no timer is
pending and the client is not connected; the timer callback surfaces the
error only if the client is still not connected when it fires; onConnect
cancels the pending timer, marks connected and clears the error;
onDisconnect clears the connected flag; onStompError surfaces its frame
message at once. -/
def connStep (s : ConnState) : ConnEvent → ConnState
  | ConnEvent.wsError now =>
      if s.errorDeadline = none ∧ s.connected = false then
        { s with errorDeadline := some (now + ERROR_GRACE_MS) }
      else s
  | ConnEvent.graceFire now =>
      match s.errorDeadline with
      | some d =>
          if d ≤ now then
            if s.connected then { s with errorDeadline := none }
            else
              { s with
                connectionError := some "WebSocket connection failed"
                errorDeadline := none }
          else s
      | none => s
  | ConnEvent.connect =>
      { connected := true, connectionError := none, errorDeadline := none }
  | ConnEvent.disconnect => { s with connected := false }
  | ConnEvent.stompError msg =>
      { s with connectionError := some (if msg = "" then "Connection error" else msg) }

/-- Claim C9: a WebSocket transport error never changes the user-visible
connectionError immediately; the grace timer it arms expires 10 seconds
later, cannot fire earlier, never fires once cancelled, and surfaces no
error if the client connected meanwhile; connecting cancels the timer and
clears the error, so no error is ever surfaced for that attempt. -/
theorem transport_error_grace_spec (s : ConnState) (now : Nat) :
    (connStep s (ConnEvent.wsError now)).connectionError = s.connectionError
      ∧ (connStep s ConnEvent.connect).connectionError = none
      ∧ (connStep s ConnEvent.connect).errorDeadline = none
      ∧ (s.errorDeadline = none → connStep s (ConnEvent.graceFire now) = s)
      ∧ (∀ d, s.errorDeadline = some d → now < d →
          connStep s (ConnEvent.graceFire now) = s)
      ∧ (s.connected = true →
          (connStep s (ConnEvent.graceFire now)).connectionError = s.connectionError)
      ∧ ((connStep s (ConnEvent.wsError now)).errorDeadline ≠ s.errorDeadline →
          (connStep s (ConnEvent.wsError now)).errorDeadline =
              some (now + ERROR_GRACE_MS)
            ∧ s.errorDeadline = none ∧ s.connected = false) := by
  obtain ⟨c, e, dl⟩ := s
  refine ⟨?_, rfl, rfl, ?_, ?_, ?_, ?_⟩
  · simp only [connStep]
    split <;> rfl
  · intro h
    simp only at h
    subst h
    rfl
  · intro d hd hlt
    simp only at hd
    subst hd
    simp only [connStep]
    rw [if_neg (by omega)]
  · intro hc
    simp only at hc
    subst hc
    cases dl with
    | none => rfl
    | some d =>
        simp only [connStep]
        split <;> rfl
  · intro hne
    simp only [connStep] at hne ⊢
    by_cases hcond : dl = none ∧ c = false
    · rw [if_pos hcond] at hne ⊢
      exact ⟨rfl, hcond.1, hcond.2⟩
    · rw [if_neg hcond] at hne
      exact absurd rfl hne

/-- Witness for C9: concrete instances of the conditional parts — a
cancelled timer never fires, a pending timer does not fire before its
deadline, and a fire after a successful connection surfaces no error. -/
theorem transport_error_grace_witness :
    connStep (ConnState.mk false none none) (ConnEvent.graceFire 0) =
        ConnState.mk false none none
      ∧ connStep (ConnState.mk false none (some 5000)) (ConnEvent.graceFire 1000) =
        ConnState.mk false none (some 5000)
      ∧ (connStep (ConnState.mk true none (some 500))
          (ConnEvent.graceFire 600)).connectionError = none :=
  ⟨(transport_error_grace_spec (ConnState.mk false none none) 0).2.2.2.1 rfl,
    (transport_error_grace_spec (ConnState.mk false none (some 5000)) 1000
      ).2.2.2.2.1 5000 rfl (by omega),
    (transport_error_grace_spec (ConnState.mk true none (some 500)) 600
      ).2.2.2.2.2.1 rfl⟩

/-- An if on a Bool takes one of its two branch values. -/
theorem ite_bool_eq_or (b : Bool) (x y : Int) :
    (if b then x else y) = y ∨ (if b then x else y) = x := by
  cases b <;> simp

/-- Claim C10: updateReactions replaces only the named type's score and
keeps the event log; it recomputes dominantType and glowActive by the
threshold rule on the updated counts, and stores intensity 100 when the
glow threshold is crossed but the caller-supplied intensity verbatim
otherwise — so, unlike addReaction, setReactionsFromBackend and
resetReactions whose stored intensity is always 0 or 100, it can store
any intensity (37 in the concrete instance). -/
theorem updateReactions_spec (s : ReactionState) (count i : Int)
    (t : ReactionType) :
    (updateReactions t count i s).reactions = s.reactions
      ∧ (updateReactions ReactionType.confused count i s).recentReactions =
        { confused := count, more := s.recentReactions.more }
      ∧ (updateReactions ReactionType.more count i s).recentReactions =
        { confused := s.recentReactions.confused, more := count }
      ∧ (updateReactions t count i s).glowActive =
        (decide ((updateReactions t count i s).recentReactions.confused
            ≥ GLOW_THRESHOLD)
          || decide ((updateReactions t count i s).recentReactions.more
            ≥ GLOW_THRESHOLD))
      ∧ (updateReactions t count i s).dominantType =
        (if (updateReactions t count i s).recentReactions.confused ≥ GLOW_THRESHOLD
         then some ReactionType.confused
         else if (updateReactions t count i s).recentReactions.more ≥ GLOW_THRESHOLD
         then some ReactionType.more
         else none)
      ∧ (updateReactions t count i s).intensity =
        (if (updateReactions t count i s).glowActive then (100 : Int) else i)
      ∧ (updateReactions ReactionType.confused 0 37 initialState).intensity = 37
      ∧ (∀ t2 r2 now2 s2, (addReaction t2 r2 now2 s2).intensity = 0
          ∨ (addReaction t2 r2 now2 s2).intensity = 100)
      ∧ (∀ c2 m2 s2, (setReactionsFromBackend c2 m2 s2).intensity = 0
          ∨ (setReactionsFromBackend c2 m2 s2).intensity = 100)
      ∧ (∀ s2, (resetReactions s2).intensity = 0) := by
  refine ⟨?_, rfl, rfl, ?_, ?_, ?_, rfl, ?_, ?_, fun _ => rfl⟩
  · cases t <;> rfl
  · cases t <;> rfl
  · cases t <;> rfl
  · cases t <;> rfl
  · intro t2 r2 now2 s2
    exact ite_bool_eq_or _ 100 0
  · intro c2 m2 s2
    exact ite_bool_eq_or _ 100 0
